import Mathlib

/-!
Verification of the fotora football-prediction pipeline against its
natural-language specification.

The Python sources (`database.py`, `feature_engineering.py`, `model.py`,
`football_prediction_system.py`) are shallowly embedded below:

* SQLite tables become Lean lists of row structures inside a `DBState`;
  `datetime.now()` is modelled by a logical clock `now : Nat` that every
  write stamps and advances, so successive writes carry strictly
  increasing timestamps (real wall-clock timestamps are nondecreasing and
  the ISO strings the code stores compare lexicographically like times).
* Python `dict.get` chains on optional nested JSON become `Option.bind`
  chains with `getD` defaults.
* Python exceptions become `Except PyError`; `PyError` enumerates both the
  exception classes the embedded code actually raises (`valueError`,
  `typeError`, `notFittedError`) and the two error names the specification
  postulates (`insufficientDataError`, `modelNotReadyError`) so that the
  specification's error claims are statable; no class with either of the
  latter names exists anywhere in the repository.
* Numeric values (probabilities, form scores, importances) are modelled
  over `ℚ`.
-/

namespace Fotora

/-- Error kinds observable from the embedded code.  The first three are the
Python/sklearn exception classes the code can actually raise; the last two
are the distinct error names postulated by the specification, which have no
definition in the repository. -/
inductive PyError where
  | valueError
  | typeError
  | notFittedError
  | insufficientDataError
  | modelNotReadyError
deriving DecidableEq, Repr

/-! ## Store (`database.py`) -/

/-- A row of the `cache` table:
`(endpoint TEXT, params TEXT, data TEXT, timestamp DATETIME)`.
`params` and `data` hold the `json.dumps` serializations; serialization is
modelled as the identity on the already-serialized strings
(`json.loads(json.dumps(x)) = x` on JSON-representable values). -/
structure CacheRow where
  endpoint : String
  params : String
  data : String
  timestamp : Nat
deriving DecidableEq, Repr

/-- A row of the `predictions` table, in column order:
`(fixture_id INTEGER PRIMARY KEY, league_id, home_team, away_team,
predicted_outcome, actual_outcome, probability, accuracy, temperature,
wind_speed, precipitation, timestamp)`. -/
structure PredRow where
  fixture_id : Int
  league_id : Int
  home_team : String
  away_team : String
  predicted_outcome : String
  actual_outcome : Option String
  probability : ℚ
  accuracy : Option ℚ
  temperature : Option ℚ
  wind_speed : Option ℚ
  precipitation : Option ℚ
  timestamp : Nat
deriving DecidableEq, Repr

/-- A row of the `feature_importance` table:
`(feature TEXT, importance REAL, timestamp DATETIME)`. -/
structure FIRow where
  feature : String
  importance : ℚ
  timestamp : Nat
deriving DecidableEq, Repr

/-- The state of the SQLite database held by `FootballDatabase`, plus the
logical clock standing in for `datetime.now()`. -/
structure DBState where
  cache : List CacheRow
  predictions : List PredRow
  feature_importance : List FIRow
  now : Nat
deriving DecidableEq, Repr

/-- `FootballDatabase.init_db`: three empty tables. -/
def initDB : DBState := ⟨[], [], [], 0⟩

/-- The `weather_data` dict passed to `store_prediction`; `dict.get` of a
missing key yields `None`, hence the `Option` fields. -/
structure WeatherData where
  temp_c : Option ℚ
  wind_kph : Option ℚ
  precip_mm : Option ℚ
deriving DecidableEq, Repr

/-- `FootballDatabase.store_prediction`: an
`INSERT OR REPLACE INTO predictions (fixture_id, league_id, home_team,
away_team, predicted_outcome, probability, temperature, wind_speed,
precipitation, timestamp) VALUES (...)`.
SQLite's `INSERT OR REPLACE` deletes any row conflicting on the primary key
and inserts a fresh row; the two columns absent from the column list
(`actual_outcome`, `accuracy`) are therefore `NULL` in the new row. -/
def store_prediction (db : DBState) (fixture_id league_id : Int)
    (home_team away_team predicted_outcome : String) (probability : ℚ)
    (weather_data : WeatherData) : DBState :=
  { db with
    predictions :=
      db.predictions.filter (fun p => p.fixture_id != fixture_id) ++
      [{ fixture_id := fixture_id
         league_id := league_id
         home_team := home_team
         away_team := away_team
         predicted_outcome := predicted_outcome
         actual_outcome := none
         probability := probability
         accuracy := none
         temperature := weather_data.temp_c
         wind_speed := weather_data.wind_kph
         precipitation := weather_data.precip_mm
         timestamp := db.now }]
    now := db.now + 1 }

/-- The `SELECT ... WHERE fixture_id=?` single-row lookup used by
`update_prediction_accuracy` (and by the theorems below to observe the
unique row of a fixture). -/
def predLookup (db : DBState) (fixture_id : Int) : Option PredRow :=
  db.predictions.find? (fun p => p.fixture_id == fixture_id)

/-- `FootballDatabase.update_prediction_accuracy`: fetch the row's
`predicted_outcome`; if no row exists, do nothing; otherwise compute
`accuracy = 1 if predicted_outcome == actual_outcome else 0` and
`UPDATE predictions SET actual_outcome=?, accuracy=? WHERE fixture_id=?`. -/
def update_prediction_accuracy (db : DBState) (fixture_id : Int)
    (actual_outcome : String) : DBState :=
  match predLookup db fixture_id with
  | none => db
  | some r =>
    let acc : ℚ := if r.predicted_outcome = actual_outcome then 1 else 0
    { db with
      predictions := db.predictions.map (fun p =>
        if p.fixture_id == fixture_id then
          { p with actual_outcome := some actual_outcome, accuracy := some acc }
        else p) }

/-- `FootballDatabase.get_prediction_accuracy`: Python's `if league_id:` is
truthy only for a non-`None`, non-zero league id; `AVG(accuracy)` averages
the non-`NULL` accuracies of the selected rows and is `NULL` (mapped to 0 by
the code) when there are none. -/
def get_prediction_accuracy (db : DBState) (league_id : Option Int) : ℚ :=
  let rows : List PredRow :=
    match league_id with
    | some lid =>
      if lid ≠ 0 then
        db.predictions.filter (fun p =>
          p.league_id == lid && p.actual_outcome.isSome)
      else
        db.predictions.filter (fun p => p.actual_outcome.isSome)
    | none => db.predictions.filter (fun p => p.actual_outcome.isSome)
  let accs := rows.filterMap (fun p => p.accuracy)
  if accs.length = 0 then 0 else accs.sum / (accs.length : ℚ)

/-- `FootballDatabase.get_historical_data`:
`SELECT * FROM predictions WHERE actual_outcome IS NOT NULL`.  The method
has no other parameter. -/
def get_historical_data (db : DBState) : List PredRow :=
  db.predictions.filter (fun p => p.actual_outcome.isSome)

/-- A Python-level call to `get_historical_data`.  The method's signature is
`get_historical_data(self)`, so passing the keyword argument
`timestamp_after` (as `evaluate_predictions` does) raises `TypeError`
before any query runs. -/
def call_get_historical_data (db : DBState) (timestamp_after : Option Nat) :
    Except PyError (List PredRow) :=
  match timestamp_after with
  | none => Except.ok (get_historical_data db)
  | some _ => Except.error PyError.typeError

/-- `FootballDatabase.cache_data`: `INSERT INTO cache VALUES (?, ?, ?, ?)`,
appending a row stamped with the current time; never overwrites. -/
def cache_data (db : DBState) (endpoint params data : String) : DBState :=
  { db with
    cache := db.cache ++ [⟨endpoint, params, data, db.now⟩]
    now := db.now + 1 }

/-- The `WHERE endpoint=? AND params=?` clause of `get_cached_data`. -/
def cacheMatches (db : DBState) (endpoint params : String) : List CacheRow :=
  db.cache.filter (fun r => r.endpoint == endpoint && r.params == params)

/-- `ORDER BY timestamp DESC LIMIT 1`: select a row of maximal timestamp
(on a timestamp tie SQLite's choice is unspecified; this embedding keeps
the later row). -/
def pickLatestBy {α : Type} (ts : α → Nat) : List α → Option α
  | [] => none
  | r :: rs =>
    match pickLatestBy ts rs with
    | none => some r
    | some b => if ts r < ts b then some b else some r

/-- `FootballDatabase.get_cached_data`:
`SELECT data FROM cache WHERE endpoint=? AND params=?
ORDER BY timestamp DESC LIMIT 1`, returning `None` when no row matches. -/
def get_cached_data (db : DBState) (endpoint params : String) : Option String :=
  (pickLatestBy (fun r => r.timestamp) (cacheMatches db endpoint params)).map
    (fun r => r.data)

/-- `FootballDatabase.store_feature_importance`: one
`INSERT INTO feature_importance VALUES (?, ?, ?)` per dataframe row, each
stamped with its own `datetime.now()` (the clock advances per row). -/
def store_feature_importance (db : DBState) (rows : List (String × ℚ)) :
    DBState :=
  rows.foldl (fun d r =>
    { d with
      feature_importance := d.feature_importance ++ [⟨r.1, r.2, d.now⟩]
      now := d.now + 1 }) db

/-- `FootballDatabase.get_feature_importance`:
`SELECT feature, importance FROM feature_importance
ORDER BY timestamp DESC LIMIT 1` — at most one `(feature, importance)` row. -/
def get_feature_importance (db : DBState) : List (String × ℚ) :=
  match pickLatestBy (fun r => r.timestamp) db.feature_importance with
  | none => []
  | some r => [(r.feature, r.importance)]

/-- The weather dict used in the C1 scenario. -/
def c1Weather : WeatherData := ⟨some 20, some 10, some 0⟩

/-- C1 scenario, step 1: first forecast for fixture 1. -/
def c1db1 : DBState := store_prediction initDB 1 39 "Arsenal" "Brentford" "H" (1/2) c1Weather

/-- C1 scenario, step 2: the real outcome `"H"` is recorded. -/
def c1db2 : DBState := update_prediction_accuracy c1db1 1 "H"

/-- C1 scenario, step 3: fixture 1 is re-predicted. -/
def c1db3 : DBState := store_prediction c1db2 1 39 "Arsenal" "Brentford" "D" (3/5) c1Weather

/-! ## FeatureEngine (`feature_engineering.py`)

The module-level `football_data` JSON blob is made an explicit argument.
JSON string keys `str(league_id)` / `str(team_id)` are modelled by the
integer ids themselves (`str` is injective on ints), and the mandatory
`['response']` unwrapping is inlined into the association-list values. -/

/-- The `clean_sheet` sub-dict of a team-statistics record. -/
structure CleanSheet where
  total : Option ℚ
deriving DecidableEq, Repr

/-- The `average` sub-dict under `goals.for` / `goals.against`. -/
structure GoalsAverage where
  total : Option ℚ
deriving DecidableEq, Repr

/-- The `goals.for` / `goals.against` sub-dict. -/
structure GoalsSide where
  average : Option GoalsAverage
deriving DecidableEq, Repr

/-- The `goals` sub-dict of a team-statistics record (`for` is a Lean
keyword, hence `for_`). -/
structure GoalsStats where
  for_ : Option GoalsSide
  against : Option GoalsSide
deriving DecidableEq, Repr

/-- A per-team statistics record; every nested key may be absent. -/
structure TeamStats where
  clean_sheet : Option CleanSheet
  goals : Option GoalsStats
deriving DecidableEq, Repr

/-- The `team` sub-dict of a standings entry or injury record. -/
structure TeamRef where
  id : Int
deriving DecidableEq, Repr

/-- One entry of a league's standings `response` list. -/
structure StandingEntry where
  team : TeamRef
  rank : Option ℚ
  form : Option String
  goalsDiff : Option ℚ
deriving DecidableEq, Repr

/-- One entry of a league's injuries `response` list. -/
structure Injury where
  team : TeamRef
deriving DecidableEq, Repr

/-- `match['fixture']` of a head-to-head record. -/
structure MatchFixture where
  date : String
deriving DecidableEq, Repr

/-- `match['teams']` of a head-to-head record, keeping the two ids. -/
structure MatchTeams where
  home : TeamRef
  away : TeamRef
deriving DecidableEq, Repr

/-- `match['goals']` of a head-to-head record. -/
structure MatchGoals where
  home : Int
  away : Int
deriving DecidableEq, Repr

/-- One head-to-head match record. -/
structure H2HMatch where
  fixture : MatchFixture
  teams : MatchTeams
  goals : MatchGoals
deriving DecidableEq, Repr

/-- The loaded `football_data.json` blob.  A `none` field models the
absence of the top-level key (`'standings' in football_data` etc.); the
inner association lists are keyed by league id, or by the
`f"{home}-{away}"` pair for head-to-head data. -/
structure FootballData where
  team_statistics : Option (List (Int × List (Int × TeamStats)))
  standings : Option (List (Int × List StandingEntry))
  injuries : Option (List (Int × List Injury))
  h2h : Option (List ((Int × Int) × List H2HMatch))
deriving Repr

/-- `get_team_data`: returns the team's statistics record and its standings
entry; each is the empty dict (here `none`) when the league key, the team
key, or the matching standings entry is absent. -/
def get_team_data (fd : FootballData) (team_id league_id : Int) :
    Option TeamStats × Option StandingEntry :=
  let team_stats : Option TeamStats :=
    match fd.team_statistics with
    | some ts =>
      match List.lookup league_id ts with
      | some league_stats => List.lookup team_id league_stats
      | none => none
    | none => none
  let standings : Option StandingEntry :=
    match fd.standings with
    | some st =>
      match List.lookup league_id st with
      | some response => response.find? (fun t => t.team.id == team_id)
      | none => none
    | none => none
  (team_stats, standings)

/-- `calculate_form`: empty string (falsy) yields 0; otherwise the average
of 1 per `'W'`, 0.5 per `'D'`, 0 per other character. -/
def calculate_form (form_string : String) : ℚ :=
  if form_string = "" then 0
  else
    (form_string.toList.map (fun c =>
      if c = 'W' then (1 : ℚ) else if c = 'D' then 1/2 else 0)).sum /
    (form_string.length : ℚ)

/-- `get_injuries`: the league's injury `response` entries whose
`team.id` matches, or `[]` when the key is absent. -/
def get_injuries (fd : FootballData) (team_id league_id : Int) : List Injury :=
  match fd.injuries with
  | some inj =>
    match List.lookup league_id inj with
    | some response => response.filter (fun i => i.team.id == team_id)
    | none => []
  | none => []

/-- `get_h2h_data`: the `response` list under the `f"{home}-{away}"` key,
or `[]` when absent. -/
def get_h2h_data (fd : FootballData) (home_team_id away_team_id : Int) :
    List H2HMatch :=
  match fd.h2h with
  | some h =>
    match List.lookup (home_team_id, away_team_id) h with
    | some response => response
    | none => []
  | none => []

/-- Lexicographic comparison of character lists — the order Python uses to
compare the ISO date strings. -/
def charListLt : List Char → List Char → Bool
  | _, [] => false
  | [], _ :: _ => true
  | a :: as, b :: bs =>
    if a < b then true else if b < a then false else charListLt as bs

/-- Python's `<` on the date strings: lexicographic on the characters. -/
def dateLt (a b : String) : Bool := charListLt a.toList b.toList

/-- Stable insertion step for sorting descending by date: an element passes
over strictly larger keys and stops before the first key ≤ its own, so
original order is kept among equal dates — matching Python's stable
`sorted(key=date, reverse=True)`. -/
def insertDescByDate (m : H2HMatch) : List H2HMatch → List H2HMatch
  | [] => [m]
  | b :: bs =>
    if dateLt m.fixture.date b.fixture.date then b :: insertDescByDate m bs
    else m :: b :: bs

/-- `sorted(h2h_data, key=lambda x: x['fixture']['date'], reverse=True)`. -/
def sortByDateDesc (l : List H2HMatch) : List H2HMatch :=
  l.foldr insertDescByDate []

/-- `calculate_recent_performance`: empty input yields 0; otherwise take up
to `num_matches` most recent matches, score each 3 for a win by `team_id`,
1 for a drawn match, 0 otherwise, and divide the sum by
(matches considered × 3). -/
def calculate_recent_performance (h2h_data : List H2HMatch) (team_id : Int)
    (num_matches : Nat := 5) : ℚ :=
  if h2h_data = [] then 0
  else
    let recent_matches := (sortByDateDesc h2h_data).take num_matches
    if recent_matches = [] then 0
    else
      let performance : ℚ :=
        (recent_matches.map (fun m =>
          if (m.teams.home.id = team_id ∧ m.goals.home > m.goals.away) ∨
             (m.teams.away.id = team_id ∧ m.goals.away > m.goals.home) then
            (3 : ℚ)
          else if m.goals.home = m.goals.away then 1 else 0)).sum
      performance / ((recent_matches.length : ℚ) * 3)

/-- The feature dict produced by `feature_engineering`, with the source's
field names and order. -/
structure Features where
  home_team_rank : ℚ
  away_team_rank : ℚ
  home_team_form : ℚ
  away_team_form : ℚ
  home_team_injuries : ℚ
  away_team_injuries : ℚ
  home_team_goal_diff : ℚ
  away_team_goal_diff : ℚ
  home_team_clean_sheets : ℚ
  away_team_clean_sheets : ℚ
  home_team_attack : ℚ
  away_team_attack : ℚ
  home_team_defense : ℚ
  away_team_defense : ℚ
  home_team_recent_performance : ℚ
  away_team_recent_performance : ℚ
deriving DecidableEq, Repr

/-- The `stats.get('goals', {}).get(side, {}).get('average', {}).get('total', 0)`
chain. -/
def goalsAverageTotal (stats : Option TeamStats)
    (side : GoalsStats → Option GoalsSide) : ℚ :=
  ((((stats.bind (fun s => s.goals)).bind side).bind
    (fun g => g.average)).bind (fun a => a.total)).getD 0

/-- `feature_engineering(home_team_id, away_team_id, league_id)`: every
`dict.get` chain defaults to 0 (or `''` for the form string), so a missing
standings entry, statistics record, injury list or head-to-head list never
raises. -/
def feature_engineering (fd : FootballData)
    (home_team_id away_team_id league_id : Int) : Features :=
  let home := get_team_data fd home_team_id league_id
  let away := get_team_data fd away_team_id league_id
  let home_team_stats := home.1
  let home_standings := home.2
  let away_team_stats := away.1
  let away_standings := away.2
  let home_injuries := get_injuries fd home_team_id league_id
  let away_injuries := get_injuries fd away_team_id league_id
  let h2h_data := get_h2h_data fd home_team_id away_team_id
  { home_team_rank := (home_standings.bind (fun s => s.rank)).getD 0
    away_team_rank := (away_standings.bind (fun s => s.rank)).getD 0
    home_team_form :=
      calculate_form ((home_standings.bind (fun s => s.form)).getD "")
    away_team_form :=
      calculate_form ((away_standings.bind (fun s => s.form)).getD "")
    home_team_injuries := (home_injuries.length : ℚ)
    away_team_injuries := (away_injuries.length : ℚ)
    home_team_goal_diff := (home_standings.bind (fun s => s.goalsDiff)).getD 0
    away_team_goal_diff := (away_standings.bind (fun s => s.goalsDiff)).getD 0
    home_team_clean_sheets :=
      ((home_team_stats.bind (fun s => s.clean_sheet)).bind
        (fun c => c.total)).getD 0
    away_team_clean_sheets :=
      ((away_team_stats.bind (fun s => s.clean_sheet)).bind
        (fun c => c.total)).getD 0
    home_team_attack := goalsAverageTotal home_team_stats (fun g => g.for_)
    away_team_attack := goalsAverageTotal away_team_stats (fun g => g.for_)
    home_team_defense := goalsAverageTotal home_team_stats (fun g => g.against)
    away_team_defense := goalsAverageTotal away_team_stats (fun g => g.against)
    home_team_recent_performance :=
      calculate_recent_performance h2h_data home_team_id
    away_team_recent_performance :=
      calculate_recent_performance h2h_data away_team_id }

/-- The C4 scenario's raw data: standings for league 39 with the two teams'
entries; no team statistics, no injuries, no head-to-head data. -/
def c4fd : FootballData :=
  { team_statistics := none
    standings := some [(39,
      [ { team := ⟨33⟩, rank := some 3, form := some "WWDLW",
          goalsDiff := some 10 },
        { team := ⟨34⟩, rank := some 10, form := some "LLDWL",
          goalsDiff := some (-4) } ])]
    injuries := none
    h2h := none }

/-- Specification-side reading of "the team won": the team played home and
the home goals exceed the away goals, or it played away and the away goals
exceed the home goals. -/
def teamWon (m : H2HMatch) (t : Int) : Prop :=
  (m.teams.home.id = t ∧ m.goals.home > m.goals.away) ∨
  (m.teams.away.id = t ∧ m.goals.away > m.goals.home)

instance (m : H2HMatch) (t : Int) : Decidable (teamWon m t) := by
  unfold teamWon
  infer_instance

/-- Specification-side score of one head-to-head match: 3 if the team won,
1 if the match was a draw, 0 otherwise. -/
def matchScore (m : H2HMatch) (t : Int) : ℚ :=
  if teamWon m t then 3 else if m.goals.home = m.goals.away then 1 else 0

/-- Specification-side selection: the up-to-`n` most recent matches by
date descending. -/
def recentWindow (h2h : List H2HMatch) (n : Nat) : List H2HMatch :=
  (sortByDateDesc h2h).take n

/-- Five head-to-head matches all won by team 7, with distinct dates. -/
def c7h2h : List H2HMatch :=
  [ ⟨⟨"2024-01-01"⟩, ⟨⟨7⟩, ⟨9⟩⟩, ⟨2, 0⟩⟩,
    ⟨⟨"2024-02-01"⟩, ⟨⟨9⟩, ⟨7⟩⟩, ⟨0, 1⟩⟩,
    ⟨⟨"2024-03-01"⟩, ⟨⟨7⟩, ⟨9⟩⟩, ⟨3, 1⟩⟩,
    ⟨⟨"2024-04-01"⟩, ⟨⟨9⟩, ⟨7⟩⟩, ⟨1, 2⟩⟩,
    ⟨⟨"2024-05-01"⟩, ⟨⟨7⟩, ⟨9⟩⟩, ⟨1, 0⟩⟩ ]

/-- A sequence of `cache_data` writes `(endpoint, params, payload)` applied
to the fresh database. -/
def applyCacheWrites (ws : List (String × String × String)) : DBState :=
  ws.foldl (fun db w => cache_data db w.1 w.2.1 w.2.2) initDB

/-- The clock invariant: every cached row is stamped before `now`, and the
rows carry strictly increasing timestamps in insertion order. -/
def cacheClockInv (db : DBState) : Prop :=
  (∀ r ∈ db.cache, r.timestamp < db.now) ∧
  List.Pairwise (fun a b : CacheRow => a.timestamp < b.timestamp) db.cache

/-- The C5 witness write sequence: two writes to the same key and one to a
different endpoint. -/
def c5ws : List (String × String × String) :=
  [("weather", "p1", "d1"), ("weather", "p1", "d2"), ("fixtures", "p1", "d3")]

/-- Two ungraded forecasts for fixtures 1 and 2, used as the C6 witness
state. -/
def c6db : DBState :=
  store_prediction
    (store_prediction initDB 1 39 "Arsenal" "Brentford" "H" 1 c1Weather)
    2 39 "Chelsea" "Fulham" "A" 1 c1Weather

/-- The row stored for fixture 1 in `c6db`. -/
def c6row : PredRow :=
  { fixture_id := 1, league_id := 39, home_team := "Arsenal",
    away_team := "Brentford", predicted_outcome := "H",
    actual_outcome := none, probability := 1, accuracy := none,
    temperature := some 20, wind_speed := some 10, precipitation := some 0,
    timestamp := 0 }

/-- The feature-importance table after one two-feature snapshot was
appended (the C8 counterexample state). -/
def c8db : DBState :=
  store_feature_importance initDB [("home_team_rank", 3), ("away_team_rank", 2)]

/-- Specification-side mean accuracy over the graded rows of all leagues
(0 when none exist). -/
def meanAccuracyAll (db : DBState) : ℚ :=
  let accs :=
    (db.predictions.filter (fun p => p.actual_outcome.isSome)).filterMap
      (fun p => p.accuracy)
  if accs.length = 0 then 0 else accs.sum / (accs.length : ℚ)

/-- Specification-side mean accuracy over one league's graded rows
(0 when none exist). -/
def meanAccuracyLeague (db : DBState) (lid : Int) : ℚ :=
  let accs :=
    (db.predictions.filter (fun p =>
      p.league_id == lid && p.actual_outcome.isSome)).filterMap
      (fun p => p.accuracy)
  if accs.length = 0 then 0 else accs.sum / (accs.length : ℚ)

/-- A database whose league-0 graded mean (1) differs from the all-league
graded mean (1/2). -/
def c10db : DBState :=
  { cache := []
    predictions :=
      [ { fixture_id := 1, league_id := 0, home_team := "A", away_team := "B",
          predicted_outcome := "H", actual_outcome := some "H",
          probability := 1, accuracy := some 1, temperature := none,
          wind_speed := none, precipitation := none, timestamp := 0 },
        { fixture_id := 2, league_id := 39, home_team := "C", away_team := "D",
          predicted_outcome := "H", actual_outcome := some "A",
          probability := 1, accuracy := some 0, temperature := none,
          wind_speed := none, precipitation := none, timestamp := 1 } ]
    feature_importance := []
    now := 2 }

/-! ## PredictionModel (`model.py`) and Orchestrator
(`football_prediction_system.py`)

The classifier's statistical content (the fitted scaler, the grid-searched
random forest, the held-out metrics) is the specification's declared
non-goal ("fit(X,y) → model", "predict_proba(X) → distribution"); the
artifact is abstracted to the list of training labels, and only the
control flow and error behaviour of `train`/`predict` — which is what the
claims concern — is embedded faithfully. -/

/-- The trained artifact, abstracting the fitted classifier + scaler pair
to the labels it was trained on. -/
inductive Model where
  | fitted (labels : List String)
deriving DecidableEq, Repr

/-- The numeric columns of a historical `predictions` row that survive
`update_model`'s column drop: `probability`, `temperature`, `wind_speed`,
`precipitation`. -/
structure HistRow where
  probability : ℚ
  temperature : Option ℚ
  wind_speed : Option ℚ
  precipitation : Option ℚ
deriving DecidableEq, Repr

/-- The `historical_data.drop([...ids, names, outcomes, accuracy,
timestamp...], axis=1)` projection. -/
def histX (p : PredRow) : HistRow :=
  ⟨p.probability, p.temperature, p.wind_speed, p.precipitation⟩

/-- `PredictionModel.train`: its first statement,
`train_test_split(X, y, test_size=0.2, random_state=42)`, raises the
generic `ValueError` when the input table is empty — no
`InsufficientDataError` class exists anywhere in the repository.  The
subsequent fitting pipeline is abstracted into the returned artifact
(further sklearn data-shape errors on small non-empty inputs are not
modelled; no theorem relies on the non-empty branch succeeding). -/
def train (X : List HistRow) (y : List String) : Except PyError Model :=
  if X.length = 0 then Except.error PyError.valueError
  else Except.ok (Model.fitted y)

/-- The arg-max of `predict_proba` on the fitted classifier, abstracted:
some training label together with a confidence. -/
def classifier_predict (m : Model) (X : Features) : String × ℚ :=
  match m with
  | Model.fitted labels => (labels.headD "", 1)

/-- `PredictionModel.predict`: with no artifact, `self.scaler` is an
unfitted `StandardScaler`, whose `transform` raises sklearn's generic
`NotFittedError` (and `self.model` is `None`); no `ModelNotReadyError`
class exists anywhere in the repository. -/
def predict (model : Option Model) (X : Features) :
    Except PyError (String × ℚ) :=
  match model with
  | none => Except.error PyError.notFittedError
  | some m => Except.ok (classifier_predict m X)

/-- The fixed feature-name list, in the order `feature_engineering`
produces them. -/
def featureNames : List String :=
  ["home_team_rank", "away_team_rank", "home_team_form", "away_team_form",
   "home_team_injuries", "away_team_injuries", "home_team_goal_diff",
   "away_team_goal_diff", "home_team_clean_sheets", "away_team_clean_sheets",
   "home_team_attack", "away_team_attack", "home_team_defense",
   "away_team_defense", "home_team_recent_performance",
   "away_team_recent_performance"]

/-- `PredictionModel.get_feature_importance`, abstracted: one row per
feature name; the learned importance values are classifier internals (a
spec non-goal) and are not used by any theorem. -/
def model_feature_importance (m : Model) : List (String × ℚ) :=
  featureNames.map (fun n => (n, 0))

/-- One fixture record, keeping the nested ids and names the orchestrator
reads (`fixture['fixture']['id']`, `fixture['league']['id']`,
`fixture['teams'][side]['id'/'name']`). -/
structure Fixture where
  fixture_id : Int
  league_id : Int
  home_id : Int
  away_id : Int
  home_name : String
  away_name : String
deriving DecidableEq, Repr

/-- Modelled from the spec: the orchestrator imports `engineer_features`
from `feature_engineering`, but that module defines only
`feature_engineering(home_team_id, away_team_id, league_id)`, so the
name being imported is missing from the repository.  Following the spec's
`buildFeatureVector(context)`, the missing function is modelled as
building the feature vector for the fixture's two teams and league from
the loaded raw data. -/
def engineer_features (fd : FootballData) (fx : Fixture) : Features :=
  feature_engineering fd fx.home_id fx.away_id fx.league_id

/-- The orchestrator's state: the database, the owned model, the loaded
raw data, the fixtures of the current cycle, and the log. -/
structure SysState where
  db : DBState
  model : Option Model
  fd : FootballData
  fixtures : List Fixture
  log : List String

/-- `FootballPredictionSystem.process_fixture`: build features, predict,
then store.  `self.db.store_prediction(...)` is called with six arguments,
omitting the required `weather_data` parameter, so Python raises
`TypeError` at the store step. -/
def process_fixture (model : Option Model) (fd : FootballData)
    (db : DBState) (fx : Fixture) : Except PyError DBState :=
  let features := engineer_features fd fx
  match predict model features with
  | Except.error e => Except.error e
  | Except.ok _ => Except.error PyError.typeError

/-- `predict_matches_for_all_leagues`, determinized: the fixture tasks of
`asyncio.gather` are processed in order and the first raised exception
propagates out of the stage, leaving the database changes already made in
place. -/
def predict_all (model : Option Model) (fd : FootballData) :
    DBState → List Fixture → DBState × Option PyError
  | db, [] => (db, none)
  | db, fx :: rest =>
    match process_fixture model fd db fx with
    | Except.error e => (db, some e)
    | Except.ok db2 => predict_all model fd db2 rest

/-- `FootballPredictionSystem.update_model`: skip (with a log line) when
the graded historical set is empty; otherwise train on the non-dropped
columns with the `actual_outcome` labels and append the feature-importance
snapshot. -/
def update_model (st : SysState) : SysState × Option PyError :=
  let historical := get_historical_data st.db
  if historical.length = 0 then
    ({ st with
       log := st.log ++ ["No historical data available for model update"] },
     none)
  else
    match train (historical.map histX)
        (historical.map (fun p => p.actual_outcome.getD "")) with
    | Except.error e => (st, some e)
    | Except.ok m =>
      ({ st with
         model := some m
         db := store_feature_importance st.db (model_feature_importance m)
         log := st.log ++ ["Model updated with historical data"] }, none)

/-- `FootballPredictionSystem.evaluate_predictions`: calls
`get_historical_data(timestamp_after=one_week_ago)`.  The method accepts
no such keyword, so the call raises `TypeError` and both `Except.ok`
branches are unreachable; the metric computation they would perform is
abstracted into a log entry. -/
def evaluate_predictions (st : SysState) : SysState × Option PyError :=
  match call_get_historical_data st.db (some (st.db.now - 7)) with
  | Except.error e => (st, some e)
  | Except.ok recent =>
    if recent.length = 0 then
      ({ st with
         log := st.log ++ ["No recent predictions available for evaluation"] },
       none)
    else
      ({ st with log := st.log ++ ["Recent model performance"] }, none)

/-- The message logged by `run`'s top-level exception handler. -/
def cycleErrorLog : String := "An error occurred in the prediction cycle"

/-- One iteration of `run`'s `while True` loop: the three stages inside
`try`; any exception reaching the top is logged and the loop proceeds to
the sleep — `runCycle` is a total function, so a failing cycle never
terminates the process, but it does abandon the remainder of the cycle. -/
def runCycle (st : SysState) : SysState :=
  let stage1 := predict_all st.model st.fd st.db st.fixtures
  let st1 : SysState := { st with db := stage1.1 }
  match stage1.2 with
  | some _ => { st1 with log := st1.log ++ [cycleErrorLog] }
  | none =>
    let stage2 := update_model st1
    match stage2.2 with
    | some _ => { stage2.1 with log := stage2.1.log ++ [cycleErrorLog] }
    | none =>
      let stage3 := evaluate_predictions stage2.1
      match stage3.2 with
      | some _ => { stage3.1 with log := stage3.1.log ++ [cycleErrorLog] }
      | none => stage3.1

/-- The empty raw-data blob (`football_data.json` absent or empty). -/
def emptyFD : FootballData := ⟨none, none, none, none⟩

/-- A fresh orchestrator state: empty database, no artifact, no fixtures. -/
def baseSysState : SysState :=
  { db := initDB, model := none, fd := emptyFD, fixtures := [], log := [] }

/-- The fixture processed in the C2 scenario. -/
def c2fixture : Fixture := ⟨101, 39, 33, 34, "Arsenal", "Brentford"⟩

/-- The C2 scenario: no artifact, one fixture to predict, and a non-empty
graded history (fixture 7 already graded), so a continuing cycle would
have retrained. -/
def c2state : SysState :=
  { db := update_prediction_accuracy
      (store_prediction initDB 7 39 "Everton" "Fulham" "H" 1 c1Weather) 7 "H"
    model := none
    fd := emptyFD
    fixtures := [c2fixture]
    log := [] }

/-! ## Theorems -/

/-- Claim C1: re-predicting a fixture must leave a recorded
`actual_outcome`/`accuracy` pair unchanged.  The code violates this: after
grading fixture 1 (`actual_outcome = "H"`, `accuracy = 1`), calling
`store_prediction` again for fixture 1 replaces the whole row via SQLite's
`INSERT OR REPLACE`, whose column list omits `actual_outcome` and
`accuracy`, so both are reset to `NULL`. -/
theorem store_prediction_erases_recorded_grading :
    (predLookup c1db2 1).map (fun p => (p.actual_outcome, p.accuracy)) =
      some (some "H", some 1) ∧
    (predLookup c1db3 1).map (fun p => (p.actual_outcome, p.accuracy)) =
      some (none, none) := by
  constructor <;> rfl

/-- The home form string of the C4 scenario evaluates to 0.7. -/
lemma c4_calculate_form_home : calculate_form "WWDLW" = 7/10 := by
  norm_num +decide [calculate_form, String.toList, String.length]

/-- The away form string of the C4 scenario evaluates to 0.3. -/
lemma c4_calculate_form_away : calculate_form "LLDWL" = 3/10 := by
  norm_num +decide [calculate_form, String.toList, String.length]

/-- Claim C4 as stated is false: for the away form string `"LLDWL"` the
code computes `(0 + 0 + 0.5 + 1 + 0) / 5 = 0.3`, not the claimed `0.1`. -/
theorem feature_engineering_away_form_counterexample :
    (feature_engineering c4fd 33 34 39).away_team_form = 3/10 ∧
    (3/10 : ℚ) ≠ 1/10 := by
  constructor
  · show calculate_form "LLDWL" = 3/10
    exact c4_calculate_form_away
  · norm_num

/-- Claim C4 (amended): on the C4 scenario `feature_engineering` yields
ranks 3 and 10, forms 0.7 and 0.3, goal differentials 10 and -4, and 0 for
every injury, clean-sheet, attack, defense and recent-performance field —
with `away_team_form = 0.3` (the claim said 0.1).  The call raises
nothing: the embedding is a total function and every absent record
defaults to 0. -/
theorem feature_engineering_no_optional_data :
    feature_engineering c4fd 33 34 39 =
      { home_team_rank := 3
        away_team_rank := 10
        home_team_form := 7/10
        away_team_form := 3/10
        home_team_injuries := 0
        away_team_injuries := 0
        home_team_goal_diff := 10
        away_team_goal_diff := -4
        home_team_clean_sheets := 0
        away_team_clean_sheets := 0
        home_team_attack := 0
        away_team_attack := 0
        home_team_defense := 0
        away_team_defense := 0
        home_team_recent_performance := 0
        away_team_recent_performance := 0 } := by
  have h : feature_engineering c4fd 33 34 39 =
      { home_team_rank := 3
        away_team_rank := 10
        home_team_form := calculate_form "WWDLW"
        away_team_form := calculate_form "LLDWL"
        home_team_injuries := 0
        away_team_injuries := 0
        home_team_goal_diff := 10
        away_team_goal_diff := -4
        home_team_clean_sheets := 0
        away_team_clean_sheets := 0
        home_team_attack := 0
        away_team_attack := 0
        home_team_defense := 0
        away_team_defense := 0
        home_team_recent_performance := 0
        away_team_recent_performance := 0 } := rfl
  rw [h, c4_calculate_form_home, c4_calculate_form_away]

/-- Claim C7: `calculate_recent_performance` yields 0 on the empty list;
on a non-empty window it returns the sum of the 3/1/0 per-match scores of
the up-to-`n` most recent matches divided by (matches considered × 3); and
a team that won all of its last 5 head-to-head matches scores exactly 1. -/
theorem calculate_recent_performance_spec :
    (∀ (t : Int) (n : Nat), calculate_recent_performance [] t n = 0) ∧
    (∀ (h2h : List H2HMatch) (t : Int) (n : Nat), recentWindow h2h n ≠ [] →
      calculate_recent_performance h2h t n =
        ((recentWindow h2h n).map (fun m => matchScore m t)).sum /
          (((recentWindow h2h n).length : ℚ) * 3)) ∧
    (∀ (h2h : List H2HMatch) (t : Int), recentWindow h2h 5 ≠ [] →
      (∀ m ∈ recentWindow h2h 5, teamWon m t) →
      calculate_recent_performance h2h t 5 = 1) := by
  have hformula : ∀ (h2h : List H2HMatch) (t : Int) (n : Nat),
      recentWindow h2h n ≠ [] →
      calculate_recent_performance h2h t n =
        ((recentWindow h2h n).map (fun m => matchScore m t)).sum /
          (((recentWindow h2h n).length : ℚ) * 3) := by
    intro h2h t n hw
    have hne : h2h ≠ [] := by
      intro h
      exact hw (by simp [recentWindow, sortByDateDesc, h])
    simp only [recentWindow] at hw ⊢
    simp only [calculate_recent_performance, if_neg hne, if_neg hw]
    simp only [matchScore, teamWon]
  refine ⟨fun t n => rfl, hformula, ?_⟩
  intro h2h t hw hall
  rw [hformula h2h t 5 hw]
  have hmap : (recentWindow h2h 5).map (fun m => matchScore m t) =
      (recentWindow h2h 5).map (fun _ => (3 : ℚ)) := by
    apply List.map_congr_left
    intro m hm
    simp [matchScore, if_pos (hall m hm)]
  have hsum : ∀ l : List H2HMatch,
      (l.map (fun _ => (3 : ℚ))).sum = (l.length : ℚ) * 3 := by
    intro l
    induction l with
    | nil => simp
    | cons a l ih =>
      simp [ih]
      ring
  rw [hmap, hsum]
  have hlen : ((recentWindow h2h 5).length : ℚ) ≠ 0 := by
    have hpos : 0 < (recentWindow h2h 5).length := List.length_pos.mpr hw
    exact_mod_cast Nat.pos_iff_ne_zero.mp hpos
  exact div_self (mul_ne_zero hlen (by norm_num))

/-- Witness for C7: team 7 won all five of its most recent head-to-head
matches in `c7h2h`, and its recent-performance score is exactly 1. -/
theorem calculate_recent_performance_spec_witness :
    (recentWindow c7h2h 5 ≠ [] ∧ ∀ m ∈ recentWindow c7h2h 5, teamWon m 7) ∧
    calculate_recent_performance c7h2h 7 5 = 1 :=
  ⟨⟨by decide, by decide⟩,
    calculate_recent_performance_spec.2.2 c7h2h 7 (by decide) (by decide)⟩

lemma pickLatestBy_eq_none {α : Type} (ts : α → Nat) (l : List α) :
    pickLatestBy ts l = none ↔ l = [] := by
  cases l with
  | nil => simp [pickLatestBy]
  | cons a tl =>
    simp only [pickLatestBy]
    cases h : pickLatestBy ts tl with
    | none => simp
    | some b =>
      by_cases hc : ts a < ts b <;> simp [hc]

lemma pickLatestBy_mem {α : Type} (ts : α → Nat) (l : List α) (r : α)
    (h : pickLatestBy ts l = some r) : r ∈ l := by
  induction l with
  | nil => simp [pickLatestBy] at h
  | cons a tl ih =>
    simp only [pickLatestBy] at h
    split at h
    · simp at h
      simp [h]
    · rename_i b heq
      split at h
      · simp at h
        subst h
        exact List.mem_cons_of_mem a (ih heq)
      · simp at h
        simp [h]

lemma pickLatestBy_max {α : Type} (ts : α → Nat) (l : List α) :
    ∀ r, pickLatestBy ts l = some r → ∀ x ∈ l, ts x ≤ ts r := by
  induction l with
  | nil => intro r h; simp [pickLatestBy] at h
  | cons a tl ih =>
    intro r h x hx
    simp only [pickLatestBy] at h
    split at h
    · rename_i heq
      have htl : tl = [] := (pickLatestBy_eq_none ts tl).mp heq
      subst htl
      simp at h hx
      subst h
      subst hx
      exact le_refl _
    · rename_i b heq
      split at h
      · rename_i hlt
        simp at h
        subst h
        rcases List.mem_cons.mp hx with hxa | hxtl
        · subst hxa
          exact le_of_lt hlt
        · exact ih _ heq x hxtl
      · rename_i hlt
        simp at h
        subst h
        rcases List.mem_cons.mp hx with hxa | hxtl
        · subst hxa
          exact le_refl _
        · exact le_trans (ih b heq x hxtl) (le_of_not_lt hlt)

lemma pairwise_mem_rel {α : Type} {R : α → α → Prop} :
    ∀ {l : List α}, List.Pairwise R l → ∀ {x y : α}, x ∈ l → y ∈ l →
      x ≠ y → R x y ∨ R y x := by
  intro l hp
  induction hp with
  | nil => intro x y hx; simp at hx
  | cons ha _ ih =>
    intro x y hx hy hne
    rcases List.mem_cons.mp hx with hxa | hxtl <;>
      rcases List.mem_cons.mp hy with hya | hytl
    · exact absurd (hxa.trans hya.symm) hne
    · exact Or.inl (hxa ▸ ha y hytl)
    · exact Or.inr (hya ▸ ha x hxtl)
    · exact ih hxtl hytl hne

lemma cache_data_preserves_inv (db : DBState) (e p d : String)
    (h : cacheClockInv db) : cacheClockInv (cache_data db e p d) := by
  obtain ⟨h1, h2⟩ := h
  constructor
  · intro r hr
    simp only [cache_data] at hr ⊢
    rcases List.mem_append.mp hr with hmem | hmem
    · exact lt_trans (h1 r hmem) (Nat.lt_succ_self _)
    · simp at hmem
      rw [hmem]
      exact Nat.lt_succ_self _
  · simp only [cache_data]
    rw [List.pairwise_append]
    refine ⟨h2, List.pairwise_singleton _ _, ?_⟩
    intro a ha b hb
    simp at hb
    rw [hb]
    exact h1 a ha

lemma applyCacheWrites_inv (ws : List (String × String × String)) :
    cacheClockInv (applyCacheWrites ws) := by
  have haux : ∀ (ws : List (String × String × String)) (db : DBState),
      cacheClockInv db →
      cacheClockInv (ws.foldl (fun db w => cache_data db w.1 w.2.1 w.2.2) db) := by
    intro ws
    induction ws with
    | nil => intro db h; exact h
    | cons w tl ih =>
      intro db h
      exact ih _ (cache_data_preserves_inv db w.1 w.2.1 w.2.2 h)
  exact haux ws initDB ⟨by simp [initDB], by simp [initDB]⟩

/-- Claim C5: after any sequence of cache writes, `get_cached_data` returns
the payload of the entry with the latest timestamp among the entries with
exactly that `(endpoint, params)` key — every other matching entry is
strictly older — and returns `none` when no entry matches. -/
theorem get_cached_data_latest (ws : List (String × String × String))
    (endpoint params : String) :
    (cacheMatches (applyCacheWrites ws) endpoint params = [] →
      get_cached_data (applyCacheWrites ws) endpoint params = none) ∧
    (cacheMatches (applyCacheWrites ws) endpoint params ≠ [] →
      ∃ r, r ∈ cacheMatches (applyCacheWrites ws) endpoint params ∧
        get_cached_data (applyCacheWrites ws) endpoint params = some r.data ∧
        ∀ x ∈ cacheMatches (applyCacheWrites ws) endpoint params,
          x ≠ r → x.timestamp < r.timestamp) := by
  constructor
  · intro h
    unfold get_cached_data
    rw [h]
    rfl
  · intro h
    have hpw :
        List.Pairwise (fun a b : CacheRow => a.timestamp < b.timestamp)
          (cacheMatches (applyCacheWrites ws) endpoint params) :=
      List.Pairwise.sublist (List.filter_sublist _) (applyCacheWrites_inv ws).2
    cases hc : pickLatestBy (fun r => r.timestamp)
        (cacheMatches (applyCacheWrites ws) endpoint params) with
    | none => exact absurd ((pickLatestBy_eq_none _ _).mp hc) h
    | some r =>
      refine ⟨r, pickLatestBy_mem _ _ _ hc, ?_, ?_⟩
      · unfold get_cached_data
        rw [hc]
        rfl
      · intro x hx hne
        have hle : x.timestamp ≤ r.timestamp :=
          pickLatestBy_max _ _ _ hc x hx
        rcases pairwise_mem_rel hpw hx (pickLatestBy_mem _ _ _ hc) hne with
          hlt | hlt
        · exact hlt
        · exact absurd hle (not_le_of_lt hlt)

/-- Witness for C5: with two entries cached under `("weather", "p1")`, the
lookup returns the payload of the strictly latest one. -/
theorem get_cached_data_latest_witness :
    cacheMatches (applyCacheWrites c5ws) "weather" "p1" ≠ [] ∧
    ∃ r, r ∈ cacheMatches (applyCacheWrites c5ws) "weather" "p1" ∧
      get_cached_data (applyCacheWrites c5ws) "weather" "p1" = some r.data ∧
      ∀ x ∈ cacheMatches (applyCacheWrites c5ws) "weather" "p1",
        x ≠ r → x.timestamp < r.timestamp :=
  ⟨by decide, (get_cached_data_latest c5ws "weather" "p1").2 (by decide)⟩

lemma find?_map_comm {α : Type} (g : α → α) (pr : α → Bool)
    (hpr : ∀ p, pr (g p) = pr p) :
    ∀ l : List α, (l.map g).find? pr = (l.find? pr).map g := by
  intro l
  induction l with
  | nil => rfl
  | cons a tl ih =>
    by_cases hc : pr a = true
    · rw [List.map_cons, List.find?_cons_of_pos _ (by rw [hpr]; exact hc),
        List.find?_cons_of_pos _ hc]
      rfl
    · rw [List.map_cons,
        List.find?_cons_of_neg _ (by rw [hpr]; exact hc),
        List.find?_cons_of_neg _ hc]
      exact ih

/-- Claim C6: `update_prediction_accuracy` is a no-op when the fixture id
has no row; when the fixture's row exists, it sets `actual_outcome` and
sets `accuracy` to 1 if the stored `predicted_outcome` equals the given
outcome and to 0 otherwise, leaving every other fixture's row in place. -/
theorem update_prediction_accuracy_spec (db : DBState) (fixture_id : Int)
    (a : String) :
    (predLookup db fixture_id = none →
      update_prediction_accuracy db fixture_id a = db) ∧
    (∀ r, predLookup db fixture_id = some r →
      predLookup (update_prediction_accuracy db fixture_id a) fixture_id =
        some { r with
               actual_outcome := some a
               accuracy := some (if r.predicted_outcome = a then (1 : ℚ) else 0) } ∧
      ∀ p ∈ db.predictions, p.fixture_id ≠ fixture_id →
        p ∈ (update_prediction_accuracy db fixture_id a).predictions) := by
  constructor
  · intro h
    unfold update_prediction_accuracy
    rw [h]
  · intro r h
    have h' : db.predictions.find? (fun p => p.fixture_id == fixture_id) =
        some r := h
    have hr : r.fixture_id = fixture_id := by
      have h2 := List.find?_some h'
      simpa using h2
    have hcomm : ∀ p : PredRow,
        ((if p.fixture_id == fixture_id then
            { p with
              actual_outcome := some a
              accuracy := some (if r.predicted_outcome = a then (1 : ℚ) else 0) }
          else p).fixture_id == fixture_id) = (p.fixture_id == fixture_id) := by
      intro p
      by_cases hc : (p.fixture_id == fixture_id) = true
      · simp [hc]
      · simp at hc
        simp [hc]
    constructor
    · unfold update_prediction_accuracy
      rw [h]
      unfold predLookup at h ⊢
      dsimp only
      rw [find?_map_comm _ _ hcomm db.predictions, h]
      simp [hr]
    · intro p hp hne
      unfold update_prediction_accuracy
      rw [h]
      dsimp only
      refine List.mem_map.mpr ⟨p, hp, ?_⟩
      rw [if_neg (by simp [hne])]

/-- Witness for C6: recording an outcome for the unknown fixture 99 leaves
`c6db` unchanged, and recording outcome `"H"` for fixture 1 grades its row
with accuracy 1. -/
theorem update_prediction_accuracy_spec_witness :
    (predLookup c6db 99 = none ∧
      update_prediction_accuracy c6db 99 "H" = c6db) ∧
    (predLookup c6db 1 = some c6row ∧
      predLookup (update_prediction_accuracy c6db 1 "H") 1 =
        some { c6row with
               actual_outcome := some "H"
               accuracy := some (if c6row.predicted_outcome = "H" then (1 : ℚ) else 0) }) :=
  ⟨⟨rfl, (update_prediction_accuracy_spec c6db 99 "H").1 rfl⟩,
   ⟨rfl, ((update_prediction_accuracy_spec c6db 1 "H").2 c6row rfl).1⟩⟩

/-- Claim C8 as stated is false: after appending a snapshot with two
feature rows, `get_feature_importance` returns a single row — the
`LIMIT 1` row with the latest timestamp, here the snapshot's last row —
not the full two-row snapshot. -/
theorem get_feature_importance_limit_one_counterexample :
    get_feature_importance c8db = [("away_team_rank", 2)] ∧
    get_feature_importance c8db ≠
      [("home_team_rank", 3), ("away_team_rank", 2)] := by
  constructor
  · rfl
  · decide

/-- Claim C8 (amended): `get_feature_importance` returns the empty table
when nothing was ever appended, and otherwise exactly one
`(feature, importance)` row, carrying a maximal timestamp — under the
per-row clock of `store_feature_importance` this is the last row of the
most recent snapshot, not the whole snapshot. -/
theorem get_feature_importance_latest_row (db : DBState) :
    (db.feature_importance = [] → get_feature_importance db = []) ∧
    (db.feature_importance ≠ [] → ∃ r, r ∈ db.feature_importance ∧
      get_feature_importance db = [(r.feature, r.importance)] ∧
      ∀ x ∈ db.feature_importance, x.timestamp ≤ r.timestamp) := by
  constructor
  · intro h
    unfold get_feature_importance
    rw [h]
    rfl
  · intro h
    cases hc : pickLatestBy (fun r : FIRow => r.timestamp)
        db.feature_importance with
    | none => exact absurd ((pickLatestBy_eq_none _ _).mp hc) h
    | some r =>
      refine ⟨r, pickLatestBy_mem _ _ _ hc, ?_, pickLatestBy_max _ _ _ hc⟩
      unfold get_feature_importance
      rw [hc]

/-- Witness for C8 (amended): on `c8db` the lookup returns exactly the
latest-stamped row of the snapshot. -/
theorem get_feature_importance_latest_row_witness :
    c8db.feature_importance ≠ [] ∧
    ∃ r, r ∈ c8db.feature_importance ∧
      get_feature_importance c8db = [(r.feature, r.importance)] ∧
      ∀ x ∈ c8db.feature_importance, x.timestamp ≤ r.timestamp :=
  ⟨by decide, (get_feature_importance_latest_row c8db).2 (by decide)⟩

/-- Claim C10: `get_prediction_accuracy` applies its league filter only
for a truthy (non-`None`, non-zero) league id — for league 0 it behaves
exactly like the unfiltered query and returns the mean over all leagues'
graded rows, which can differ from league 0's own mean. -/
theorem get_prediction_accuracy_league_zero :
    (∀ db : DBState,
      get_prediction_accuracy db (some 0) = meanAccuracyAll db ∧
      get_prediction_accuracy db none = meanAccuracyAll db) ∧
    (∀ (db : DBState) (lid : Int), lid ≠ 0 →
      get_prediction_accuracy db (some lid) = meanAccuracyLeague db lid) ∧
    (∃ db : DBState,
      get_prediction_accuracy db (some 0) ≠ meanAccuracyLeague db 0) := by
  refine ⟨fun db => ⟨rfl, rfl⟩, ?_, ?_⟩
  · intro db lid hlid
    simp [get_prediction_accuracy, meanAccuracyLeague, hlid]
  · refine ⟨c10db, ?_⟩
    show meanAccuracyAll c10db ≠ meanAccuracyLeague c10db 0
    have h1 : meanAccuracyAll c10db = (1 : ℚ) / 2 := by
      norm_num +decide [meanAccuracyAll, c10db, List.filterMap_cons]
    have h2 : meanAccuracyLeague c10db 0 = 1 := by
      norm_num +decide [meanAccuracyLeague, c10db, List.filterMap_cons]
    rw [h1, h2]
    norm_num

/-- Witness for C10: for the truthy league id 39 the filtered mean is
returned. -/
theorem get_prediction_accuracy_league_zero_witness :
    (39 : Int) ≠ 0 ∧
    get_prediction_accuracy c10db (some 39) = meanAccuracyLeague c10db 39 :=
  ⟨by decide, get_prediction_accuracy_league_zero.2.1 c10db 39 (by decide)⟩

/-- Claim C2 as stated is false: `predict` with no artifact fails with the
generic `notFittedError`, which is not the distinct `modelNotReadyError`
the claim names; and on `c2state` — whose graded history is non-empty, so
a cycle that merely skipped the failed fixture would have retrained — the
cycle is abandoned at the failed prediction and the model stays `none`. -/
theorem predict_untrained_counterexample :
    predict none (engineer_features emptyFD c2fixture) =
      Except.error PyError.notFittedError ∧
    (Except.error PyError.notFittedError : Except PyError (String × ℚ)) ≠
      Except.error PyError.modelNotReadyError ∧
    get_historical_data c2state.db ≠ [] ∧
    (runCycle c2state).model = none := by
  refine ⟨rfl, fun h => PyError.noConfusion (Except.error.inj h), by decide, rfl⟩

/-- Claim C2 (amended): `predict` with no artifact fails with sklearn's
generic `NotFittedError` (no distinct `ModelNotReadyError` exists in the
repository); the orchestrator's top-level handler catches the exception
and logs it, so the run loop survives, but the whole remaining cycle —
the other fixtures, retraining, evaluation — is abandoned rather than
only that fixture's prediction being skipped. -/
theorem predict_untrained_generic_error (st : SysState) (X : Features)
    (hm : st.model = none) (hfx : st.fixtures ≠ []) :
    predict st.model X = Except.error PyError.notFittedError ∧
    runCycle st = { st with log := st.log ++ [cycleErrorLog] } := by
  constructor
  · rw [hm]
    exact rfl
  · cases hfxs : st.fixtures with
    | nil => exact absurd hfxs hfx
    | cons fx rest =>
      unfold runCycle
      rw [hm, hfxs]
      simp [predict_all, process_fixture, predict]

/-- Witness for C2 (amended): on `c2state` the prediction fails with the
generic error and the cycle is abandoned with only the error log entry. -/
theorem predict_untrained_generic_error_witness :
    (c2state.model = none ∧ c2state.fixtures ≠ []) ∧
    predict c2state.model (engineer_features emptyFD c2fixture) =
      Except.error PyError.notFittedError ∧
    runCycle c2state = { c2state with log := c2state.log ++ [cycleErrorLog] } :=
  ⟨⟨rfl, by decide⟩,
    predict_untrained_generic_error c2state
      (engineer_features emptyFD c2fixture) rfl (by decide)⟩

/-- Claim C3 is violated by the code: `get_historical_data(self)` accepts
no time bound, so the orchestrator's evaluation call — which passes
`timestamp_after=one_week_ago` — raises `TypeError` on every cycle and
state, and the trailing-7-days query never runs. -/
theorem evaluate_predictions_typeerror (st : SysState) :
    (evaluate_predictions st).2 = some PyError.typeError ∧
    (evaluate_predictions st).1 = st ∧
    call_get_historical_data st.db (some (st.db.now - 7)) =
      Except.error PyError.typeError :=
  ⟨rfl, rfl, rfl⟩

/-- Claim C9 as stated is false on the empty table: `train` fails with the
generic `valueError` raised by `train_test_split`, which is not the
distinct `insufficientDataError` the claim names. -/
theorem train_empty_counterexample :
    train [] [] = Except.error PyError.valueError ∧
    (Except.error PyError.valueError : Except PyError Model) ≠
      Except.error PyError.insufficientDataError := by
  exact ⟨rfl, fun h => PyError.noConfusion (Except.error.inj h)⟩

/-- Claim C9 (amended): `train` on an empty feature table fails with the
generic `ValueError` from the train/test split (no distinct
`InsufficientDataError` class exists); at the orchestrator level an empty
historical graded set causes retraining to be skipped with a log line —
no error is raised and the state is otherwise unchanged. -/
theorem train_empty_valueerror_and_retrain_skipped :
    (∀ y : List String, train [] y = Except.error PyError.valueError) ∧
    (∀ st : SysState, get_historical_data st.db = [] →
      (update_model st).2 = none ∧
      (update_model st).1.model = st.model ∧
      (update_model st).1.db = st.db ∧
      (update_model st).1.log =
        st.log ++ ["No historical data available for model update"]) := by
  constructor
  · intro y
    rfl
  · intro st h
    unfold update_model
    rw [h]
    exact ⟨rfl, rfl, rfl, rfl⟩

/-- Witness for C9 (amended): on the fresh state the historical set is
empty, training an empty table yields `valueError`, and `update_model`
skips without error. -/
theorem train_empty_valueerror_and_retrain_skipped_witness :
    get_historical_data baseSysState.db = [] ∧
    train [] ["H"] = Except.error PyError.valueError ∧
    (update_model baseSysState).2 = none ∧
    (update_model baseSysState).1.model = baseSysState.model :=
  ⟨rfl, train_empty_valueerror_and_retrain_skipped.1 ["H"],
    (train_empty_valueerror_and_retrain_skipped.2 baseSysState rfl).1,
    (train_empty_valueerror_and_retrain_skipped.2 baseSysState rfl).2.1⟩

end Fotora
